import Mathlib

/-!
Shallow embedding of `src/main.py` of the `pipeline-ecommerce` repository:
a single-file ETL script with two functions, `fetch_and_load` (HTTP GET →
pandas DataFrame → column sanitization → complex-value coercion → BigQuery
replace-write) and `run_pipeline` (environment check, then one
`fetch_and_load` invocation per configured source).

External effects (the HTTP request, `pd.DataFrame` construction, `to_gbq`)
are injected as parameters that either return a value or raise a Python
exception; the pure transformation steps (column-name sanitization and
complex-column coercion) are modelled concretely.  Logging is modelled as a
trace of (level, message) pairs, and `to_gbq` invocations are recorded in
the trace.
-/

namespace Pipeline

/-- A parsed JSON value, the possible results of `response.json()`.
Numbers are modelled as integers (the payloads the script consumes carry
integral ids and quantities). -/
inductive JValue where
  | null : JValue
  | bool : Bool → JValue
  | num : Int → JValue
  | str : String → JValue
  | arr : List JValue → JValue
  | obj : List (String × JValue) → JValue

/-- Python truthiness of a parsed JSON value, as tested by `if not data:`
at src/main.py line 30: `None`, `False`, `0`, `""`, `[]` and `{}` are falsy. -/
def JValue.falsy : JValue → Bool
  | .null => true
  | .bool b => !b
  | .num i => i == 0
  | .str s => s.isEmpty
  | .arr l => l.isEmpty
  | .obj kvs => kvs.isEmpty

/-- A pandas cell value as it sits in a DataFrame column built from parsed
JSON records: scalars keep their Python type, nested arrays/objects are
kept whole (`list` / `dict` cells), a JSON `null` becomes `None`, and a key
missing from a record becomes `NaN`. -/
inductive PCell where
  | pInt : Int → PCell
  | pBool : Bool → PCell
  | pStr : String → PCell
  | pNone : PCell
  | pNaN : PCell
  | pList : List JValue → PCell
  | pDict : List (String × JValue) → PCell

/-- `df[col].apply(type).isin([list, dict])` holds exactly for the cells
that are Python lists or dicts (src/main.py line 43). -/
def PCell.isComplex : PCell → Bool
  | .pList _ => true
  | .pDict _ => true
  | _ => false

/-- Is the cell a Python `str`? -/
def PCell.isStr : PCell → Bool
  | .pStr _ => true
  | _ => false

/-- A pandas DataFrame, column-oriented: a list of (column name, cell
values) pairs.  `df.shape[0]` is the common length of the value lists. -/
structure Frame where
  cols : List (String × List PCell)

/-- The character class `[0-9a-zA-Z_]` of the regex at src/main.py line 38,
by code point. -/
def allowedChar (c : Char) : Bool :=
  (48 ≤ c.toNat && c.toNat ≤ 57) || (97 ≤ c.toNat && c.toNat ≤ 122) ||
    (65 ≤ c.toNat && c.toNat ≤ 90) || (c.toNat == 95)

/-- One character of `str.replace('[^0-9a-zA-Z_]', '_', regex=True)`:
a character outside the class is replaced by an underscore. -/
def replaceChar (c : Char) : Char :=
  if allowedChar c then c else '_'

/-- Column-name sanitization, src/main.py line 38: replace every character
outside `[0-9a-zA-Z_]` with `_`, then lowercase the result.  After the
replacement every character is basic-latin, where Python `str.lower` agrees
with `Char.toLower`. -/
def sanitizeName (s : String) : String :=
  String.mk ((s.data.map replaceChar).map Char.toLower)

/-- `df.columns = df.columns.str.replace(...).str.lower()`: rename every
column, leaving the values untouched. -/
def sanitizeColumns (f : Frame) : Frame :=
  ⟨f.cols.map (fun c => (sanitizeName c.1, c.2))⟩

/-- The single-quote character, code point 39. -/
def squote : Char := Char.ofNat 39

/-- The double-quote character, code point 34. -/
def dquote : Char := Char.ofNat 34

/-- Wrap a string in single quotes, as the f-strings of src/main.py do
around the table name. -/
def quoted (s : String) : String :=
  String.singleton squote ++ s ++ String.singleton squote

/-- One character of Python `repr` of a string: escape the backslash and
the active quote character. -/
def escapeChar (q c : Char) : String :=
  if c == '\\' then "\\\\"
  else if c == q then "\\" ++ String.singleton q
  else String.singleton c

/-- Python `repr` of a string (printable characters): single quotes, unless
the string contains a single quote and no double quote. -/
def pyReprStr (s : String) : String :=
  let q := if s.data.contains squote && !(s.data.contains dquote) then dquote else squote
  String.singleton q ++ String.join (s.data.map (escapeChar q)) ++ String.singleton q

mutual

/-- Python `repr` of a parsed JSON value, which is what `str` applied to a
`list` or `dict` cell prints element-wise. -/
def pyReprJ : JValue → String
  | .null => "None"
  | .bool true => "True"
  | .bool false => "False"
  | .num i => toString i
  | .str s => pyReprStr s
  | .arr l => "[" ++ pyReprArr l ++ "]"
  | .obj kvs => "\x7b" ++ pyReprObj kvs ++ "\x7d"

/-- Comma-separated `repr` of list elements. -/
def pyReprArr : List JValue → String
  | [] => ""
  | [v] => pyReprJ v
  | v :: w :: rest => pyReprJ v ++ ", " ++ pyReprArr (w :: rest)

/-- Comma-separated `repr` of dict items. -/
def pyReprObj : List (String × JValue) → String
  | [] => ""
  | [kv] => pyReprStr kv.1 ++ ": " ++ pyReprJ kv.2
  | kv :: kw :: rest => pyReprStr kv.1 ++ ": " ++ pyReprJ kv.2 ++ ", " ++ pyReprObj (kw :: rest)

end

/-- Python `str` of a cell, as applied element-wise by
`df[col].astype(str)` (src/main.py line 44): `str` of a `str` is itself,
`None` prints as `None`, `NaN` prints as `nan`, and nested values print by
`repr`. -/
def PCell.pyStr : PCell → String
  | .pInt i => toString i
  | .pBool true => "True"
  | .pBool false => "False"
  | .pStr s => s
  | .pNone => "None"
  | .pNaN => "nan"
  | .pList l => "[" ++ pyReprArr l ++ "]"
  | .pDict kvs => "\x7b" ++ pyReprObj kvs ++ "\x7d"

/-- `astype(str)` of one cell. -/
def PCell.toStrCell (c : PCell) : PCell := .pStr c.pyStr

/-- The coercion loop of src/main.py lines 42-44: for every column whose
values include a list or a dict, convert every value of that column to its
string representation; other columns are left unchanged. -/
def coerceComplex (f : Frame) : Frame :=
  ⟨f.cols.map (fun c =>
    if c.2.any PCell.isComplex then (c.1, c.2.map PCell.toStrCell) else c)⟩

/-- The two in-process transformation steps applied between DataFrame
construction and the write (src/main.py lines 38-44). -/
def transformSteps (f : Frame) : Frame :=
  coerceComplex (sanitizeColumns f)

/-- Column discovery of `pd.DataFrame` on a list of records: the union of
the record keys, in order of first appearance. -/
def recordKeys (records : List (List (String × JValue))) : List String :=
  records.foldl
    (fun acc r => r.foldl (fun acc kv => if acc.contains kv.1 then acc else acc ++ [kv.1]) acc)
    []

/-- The pandas cell for one record and one column: the record value if the
key is present, `NaN` otherwise. -/
def recordCell (r : List (String × JValue)) (k : String) : PCell :=
  match r.find? (fun kv => kv.1 == k) with
  | some (_, JValue.null) => .pNone
  | some (_, JValue.bool b) => .pBool b
  | some (_, JValue.num i) => .pInt i
  | some (_, JValue.str s) => .pStr s
  | some (_, JValue.arr l) => .pList l
  | some (_, JValue.obj kvs) => .pDict kvs
  | none => .pNaN

/-- `pd.DataFrame(data)` on a JSON array of objects (the normalization
mode the script exercises): one row per record, one column per discovered
key, missing keys becoming `NaN`. -/
def recordsFrame (records : List (List (String × JValue))) : Frame :=
  ⟨(recordKeys records).map (fun k => (k, records.map (fun r => recordCell r k)))⟩

/-- `df.shape[0]`, the number of rows of the frame. -/
def Frame.nRows (f : Frame) : Nat :=
  ((f.cols.head?).map (fun c => c.2.length)).getD 0

/-- A Python exception as the two `except` clauses of src/main.py
lines 60-63 discriminate it: a `requests.exceptions.RequestException`
(network failure, or non-2xx status raised by `raise_for_status`), or any
other `Exception`. -/
inductive PyExn where
  | requestException : String → PyExn
  | otherException : String → PyExn

/-- The result of one external step: a value, or a raised exception. -/
inductive PyResult (α : Type) where
  | ok : α → PyResult α
  | exn : PyExn → PyResult α

/-- Logging levels used by the script. -/
inductive LogLevel where
  | info : LogLevel
  | warning : LogLevel
  | error : LogLevel
deriving DecidableEq, BEq

/-- The observable trace of one `fetch_and_load` invocation: the log lines
emitted, and the `to_gbq` calls made (destination table and frame). -/
structure Trace where
  logs : List (LogLevel × String)
  gbqCalls : List (String × Frame)

/-- The injected behaviours of the three external steps of one source:
the HTTP fetch (`requests.get` + `raise_for_status` + `response.json()`),
the `pd.DataFrame` constructor, and the `to_gbq` write. -/
structure SourceBehavior where
  fetch : PyResult JValue
  mkDataFrame : JValue → PyResult Frame
  toGbq : Frame → String → String → PyResult Unit

def msgStart (url : String) : String :=
  "Iniciando extração de dados da API: " ++ url

def msgExtracted (table : String) : String :=
  "Dados de " ++ quoted table ++ " extraídos com sucesso."

def msgSkip (table : String) : String :=
  "Nenhum dado retornado da API para " ++ quoted table ++ ". Pulando o carregamento."

def msgNormalized (table : String) (rows : Nat) : String :=
  "Dados de " ++ quoted table ++ " normalizados. DataFrame criado com "
    ++ toString rows ++ " linhas."

def msgLoadStart (dest : String) : String :=
  "Iniciando carregamento para a tabela do BigQuery: " ++ dest

def msgLoaded (table : String) : String :=
  "Dados de " ++ quoted table ++ " carregados com sucesso no BigQuery!"

def msgNetError (table m : String) : String :=
  "Erro de rede ao extrair dados para " ++ quoted table ++ ": " ++ m

def msgProcError (table m : String) : String :=
  "Falha no processamento de " ++ quoted table ++ ": " ++ m

def msgEnvError : String :=
  "Variáveis de ambiente (GCP_PROJECT_ID, BQ_DATASET_ID) não foram configuradas."

def msgPipeStart : String :=
  "--- Iniciando pipeline de dados da Fake Store API ---"

def msgPipeEnd : String :=
  "--- Pipeline de dados da Fake Store API finalizado. ---"

/-- The `try` block of `fetch_and_load` (src/main.py lines 23-58): the
trace accumulated so far, paired with the exception in flight when a step
raised.  Fetch first; on success, the empty-payload guard returns early
with a warning; otherwise the DataFrame is built, the columns sanitized,
the complex columns coerced, and `to_gbq` invoked. -/
def fetch_and_load_body (url table project dataset : String) (b : SourceBehavior) :
    Trace × Option PyExn :=
  match b.fetch with
  | .exn e => (⟨[(.info, msgStart url)], []⟩, some e)
  | .ok data =>
    let l0 := [((LogLevel.info), msgStart url), ((LogLevel.info), msgExtracted table)]
    if data.falsy then
      (⟨l0 ++ [(.warning, msgSkip table)], []⟩, none)
    else
      match b.mkDataFrame data with
      | .exn e => (⟨l0, []⟩, some e)
      | .ok df0 =>
        let df := transformSteps df0
        let dest := dataset ++ "." ++ table
        let l1 := l0 ++ [((LogLevel.info), msgNormalized table df.nRows),
                         ((LogLevel.info), msgLoadStart dest)]
        match b.toGbq df dest project with
        | .exn e => (⟨l1, [(dest, df)]⟩, some e)
        | .ok _ => (⟨l1 ++ [(.info, msgLoaded table)], [(dest, df)]⟩, none)

/-- `fetch_and_load` (src/main.py lines 13-63): the `try` body, with the
two `except` clauses turning any raised exception into a logged error.
The function is total — every exception of the body is handled, so no
exception escapes to the caller. -/
def fetch_and_load (url table project dataset : String) (b : SourceBehavior) : Trace :=
  match fetch_and_load_body url table project dataset b with
  | (tr, Option.none) => tr
  | (tr, Option.some (PyExn.requestException m)) =>
    ⟨tr.logs ++ [(.error, msgNetError table m)], tr.gbqCalls⟩
  | (tr, Option.some (PyExn.otherException m)) =>
    ⟨tr.logs ++ [(.error, msgProcError table m)], tr.gbqCalls⟩

/-- Python truthiness of `os.getenv`: falsy when the variable is unset
(`None`) or set to the empty string. -/
def truthyEnv : Option String → Bool
  | none => false
  | some s => !s.isEmpty

def productsUrl : String := "https://fakestoreapi.com/products"

def cartsUrl : String := "https://fakestoreapi.com/carts"

/-- The observable trace of one `run_pipeline` invocation: the log lines,
the `fetch_and_load` invocations made (url, table name), and the `to_gbq`
calls of the whole run. -/
structure RunTrace where
  logs : List (LogLevel × String)
  invocations : List (String × String)
  gbqCalls : List (String × Frame)

/-- `run_pipeline` (src/main.py lines 66-95): read `GCP_PROJECT_ID` and
`BQ_DATASET_ID` from the environment; if `not all([project_id, dataset_id])`
log an error and return; otherwise invoke `fetch_and_load` for the
products source and then for the carts source, unconditionally. -/
def run_pipeline (getenv : String → Option String) (behav : String → SourceBehavior) :
    RunTrace :=
  let project_id := getenv "GCP_PROJECT_ID"
  let dataset_id := getenv "BQ_DATASET_ID"
  if !(truthyEnv project_id && truthyEnv dataset_id) then
    ⟨[(.error, msgEnvError)], [], []⟩
  else
    let t1 := fetch_and_load productsUrl "raw_products" ((project_id).getD "")
      ((dataset_id).getD "") (behav productsUrl)
    let t2 := fetch_and_load cartsUrl "raw_carts" ((project_id).getD "")
      ((dataset_id).getD "") (behav cartsUrl)
    ⟨[(.info, msgPipeStart)] ++ t1.logs ++ t2.logs ++ [(.info, msgPipeEnd)],
     [(productsUrl, "raw_products"), (cartsUrl, "raw_carts")],
     t1.gbqCalls ++ t2.gbqCalls⟩

/-- Does `needle` start `hay`? -/
def charsStartWith : List Char → List Char → Bool
  | _, [] => true
  | [], _ :: _ => false
  | a :: as, b :: bs => a == b && charsStartWith as bs

/-- Does `needle` occur contiguously in `hay`? -/
def charsContain : List Char → List Char → Bool
  | [], needle => needle.isEmpty
  | a :: as, needle => charsStartWith (a :: as) needle || charsContain as needle

/-- Does the log message mention the given name as a substring? -/
def mentions (msg name : String) : Bool :=
  charsContain msg.data name.data

/-- The error log lines of a trace. -/
def errorLogs (logs : List (LogLevel × String)) : List (LogLevel × String) :=
  logs.filter (fun e => e.1 == LogLevel.error)

/-- The warning log lines of a trace. -/
def warningLogs (logs : List (LogLevel × String)) : List (LogLevel × String) :=
  logs.filter (fun e => e.1 == LogLevel.warning)

/-- The character class `[a-z0-9_]` of the spec invariant, by code point. -/
def emittedChar (c : Char) : Bool :=
  (97 ≤ c.toNat && c.toNat ≤ 122) || (48 ≤ c.toNat && c.toNat ≤ 57) || (c.toNat == 95)

/-- Does the string match the regular expression `[a-z0-9_]+`: at least
one character, all drawn from lowercase letters, digits and underscore? -/
def matchesLowerIdent (s : String) : Bool :=
  !s.data.isEmpty && s.data.all emittedChar

/-- A trivial behaviour for the external steps: the fetch yields `null`,
the DataFrame constructor yields an empty frame, the write succeeds. -/
def trivialBehavior : SourceBehavior :=
  ⟨.ok JValue.null, fun _ => .ok ⟨[]⟩, fun _ _ _ => .ok ()⟩

/-- A behaviour with a prescribed fetch result and trivial remaining
steps. -/
def behaviorOf (fetch : PyResult JValue) : SourceBehavior :=
  ⟨fetch, fun _ => .ok ⟨[]⟩, fun _ _ _ => .ok ()⟩

/-- An environment where `GCP_PROJECT_ID` is set but `BQ_DATASET_ID` is
absent. -/
def envMissingDataset : String → Option String :=
  fun v => if v == "GCP_PROJECT_ID" then some "demo-project" else none

/-- An environment where both required variables are set. -/
def envFull : String → Option String :=
  fun v => if v == "GCP_PROJECT_ID" then some "demo-project"
    else if v == "BQ_DATASET_ID" then some "ecommerce" else none

/-- The parsed payload of the products/tags scenario:
`[ (id 1, tags [a, b]), (id 2, tags []) ]`. -/
def tagsPayload : List (List (String × JValue)) :=
  [[("id", JValue.num 1), ("tags", JValue.arr [JValue.str "a", JValue.str "b"])],
   [("id", JValue.num 2), ("tags", JValue.arr [])]]

/-- A two-column concrete frame with one complex column, used to exercise
the transformation theorems at a concrete input. -/
def sampleFrame : Frame :=
  ⟨[("Product ID", [PCell.pInt 7, PCell.pInt 8]),
    ("Tags", [PCell.pList [JValue.str "x"], PCell.pNone])]⟩

end Pipeline

namespace Pipeline

/-! ### Helper lemmas -/

theorem data_append (a b : String) : (a ++ b).data = a.data ++ b.data := by
  cases a; cases b; rfl

theorem char_toNat_ofNat {n : Nat} (h : n < 55296) : (Char.ofNat n).toNat = n := by
  have hv : n.isValidChar := Or.inl h
  simp [Char.ofNat, hv, Char.ofNatAux, Char.toNat, UInt32.toNat]

theorem toLower_toNat (c : Char) :
    (Char.toLower c).toNat = if 65 ≤ c.toNat ∧ c.toNat ≤ 90 then c.toNat + 32 else c.toNat := by
  unfold Char.toLower
  split
  · next h =>
    rw [if_pos (by exact ⟨h.1, h.2⟩)]
    exact char_toNat_ofNat (by omega)
  · next h => rw [if_neg (by exact h)]

theorem allowedChar_replaceChar (c : Char) : allowedChar (replaceChar c) = true := by
  by_cases h : allowedChar c
  · simp [replaceChar, h]
  · simp [replaceChar, h]; decide

theorem emittedChar_toLower_of_allowed {c : Char} (h : allowedChar c = true) :
    emittedChar (Char.toLower c) = true := by
  simp only [allowedChar, Bool.or_eq_true, Bool.and_eq_true, decide_eq_true_eq, beq_iff_eq] at h
  simp only [emittedChar, Bool.or_eq_true, Bool.and_eq_true, decide_eq_true_eq, beq_iff_eq,
    toLower_toNat]
  split <;> omega

theorem toLower_of_emitted {c : Char} (h : emittedChar c = true) : Char.toLower c = c := by
  simp only [emittedChar, Bool.or_eq_true, Bool.and_eq_true, decide_eq_true_eq, beq_iff_eq] at h
  unfold Char.toLower
  rw [if_neg (by omega)]

theorem allowedChar_of_emitted {c : Char} (h : emittedChar c = true) : allowedChar c = true := by
  simp only [emittedChar, Bool.or_eq_true, Bool.and_eq_true, decide_eq_true_eq, beq_iff_eq] at h
  simp only [allowedChar, Bool.or_eq_true, Bool.and_eq_true, decide_eq_true_eq, beq_iff_eq]
  omega

theorem sanitize_char_emitted (c : Char) : emittedChar (Char.toLower (replaceChar c)) = true :=
  emittedChar_toLower_of_allowed (allowedChar_replaceChar c)

theorem sanitize_char_fix {c : Char} (h : emittedChar c = true) :
    Char.toLower (replaceChar c) = c := by
  rw [replaceChar, if_pos (allowedChar_of_emitted h), toLower_of_emitted h]

theorem charsStartWith_append (l rest : List Char) : charsStartWith (l ++ rest) l = true := by
  induction l with
  | nil => cases rest <;> rfl
  | cons a as ih => simp [charsStartWith, ih]

theorem charsContain_nil_needle (hay : List Char) : charsContain hay [] = true := by
  cases hay <;> simp [charsContain, charsStartWith]

theorem charsContain_self_append (needle post : List Char) :
    charsContain (needle ++ post) needle = true := by
  cases needle with
  | nil => exact charsContain_nil_needle post
  | cons n ns =>
    have h1 : charsStartWith ((n :: ns) ++ post) (n :: ns) = true :=
      charsStartWith_append (n :: ns) post
    show (charsStartWith (n :: (ns ++ post)) (n :: ns)
      || charsContain (ns ++ post) (n :: ns)) = true
    rw [show (n :: (ns ++ post) : List Char) = (n :: ns) ++ post from rfl, h1, Bool.true_or]

theorem charsContain_mono (pre hay needle : List Char)
    (h : charsContain hay needle = true) : charsContain (pre ++ hay) needle = true := by
  induction pre with
  | nil => exact h
  | cons p ps ih => simp [charsContain, ih]

theorem mentions_quoted_mid (pre table post : String) :
    mentions (pre ++ quoted table ++ post) table = true := by
  unfold mentions quoted
  simp only [data_append, List.append_assoc]
  exact charsContain_mono _ _ _ (charsContain_mono _ _ _ (charsContain_self_append _ _))

end Pipeline

namespace Pipeline

theorem string_append_assoc (a b c : String) : a ++ b ++ c = a ++ (b ++ c) := by
  rcases a with ⟨da⟩; rcases b with ⟨db⟩; rcases c with ⟨dc⟩
  show String.mk ((da ++ db) ++ dc) = String.mk (da ++ (db ++ dc))
  rw [List.append_assoc]

theorem run_pipeline_invocations (getenv : String → Option String)
    (behav : String → SourceBehavior)
    (hp : truthyEnv (getenv "GCP_PROJECT_ID") = true)
    (hd : truthyEnv (getenv "BQ_DATASET_ID") = true) :
    (run_pipeline getenv behav).invocations =
      [(productsUrl, "raw_products"), (cartsUrl, "raw_carts")] := by
  unfold run_pipeline
  simp [hp, hd]

/-! ### Claim theorems -/

/-- C8: the column-name sanitization is idempotent — sanitizing an
already-sanitized name is a no-op. -/
theorem sanitizeName_idempotent (s : String) :
    sanitizeName (sanitizeName s) = sanitizeName s := by
  unfold sanitizeName
  simp only [List.map_map]
  congr 1
  apply List.map_congr_left
  intro c _
  exact sanitize_char_fix (sanitize_char_emitted c)

/-- C3 (amended): every character of a sanitized column name lies in
`[a-z0-9_]`, and sanitization preserves length; hence every nonempty input
column name sanitizes to a name matching `[a-z0-9_]+`.  (The empty input
name sanitizes to the empty string, which has no characters and so does
not match the `+` of the regex — see the counterexample.) -/
theorem sanitizeName_charset (s : String) :
    (sanitizeName s).data.all emittedChar = true ∧
    (sanitizeName s).data.length = s.data.length ∧
    (s ≠ "" → matchesLowerIdent (sanitizeName s) = true) := by
  refine ⟨?_, ?_, ?_⟩
  · show ((s.data.map replaceChar).map Char.toLower).all emittedChar = true
    rw [List.all_map, List.all_map, List.all_eq_true]
    intro c _
    exact sanitize_char_emitted c
  · show ((s.data.map replaceChar).map Char.toLower).length = s.data.length
    simp
  · intro hne
    have hdata : s.data ≠ [] := by
      intro h
      apply hne
      cases s
      simp only at h
      simp [h]
    unfold matchesLowerIdent
    rw [Bool.and_eq_true]
    constructor
    · show (!((s.data.map replaceChar).map Char.toLower).isEmpty) = true
      simp [List.isEmpty_iff, hdata]
    · show ((s.data.map replaceChar).map Char.toLower).all emittedChar = true
      rw [List.all_map, List.all_map, List.all_eq_true]
      intro c _
      exact sanitize_char_emitted c

/-- C3 (witness): the amended theorem applied to a concrete column name. -/
theorem sanitizeName_charset_witness :
    ("Hello World!" : String) ≠ "" ∧
    ((sanitizeName "Hello World!").data.all emittedChar = true ∧
     (sanitizeName "Hello World!").data.length = ("Hello World!" : String).data.length ∧
     (("Hello World!" : String) ≠ "" → matchesLowerIdent (sanitizeName "Hello World!") = true)) :=
  ⟨by decide, sanitizeName_charset "Hello World!"⟩

/-- C3 (counterexample): the claim quantifies over any input column name,
but the empty column name sanitizes to the empty string, which does not
match `[a-z0-9_]+` (it has zero characters, not one or more). -/
theorem sanitizeName_empty_counterexample :
    sanitizeName "" = "" ∧ matchesLowerIdent (sanitizeName "") = false := by
  constructor <;> rfl

/-- C6: for every column of a frame whose values include at least one list
or dict cell, the coercion step turns every value of that column —
whatever it originally was — into a Python `str`. -/
theorem complex_column_coerced (f : Frame) (n : String) (vs : List PCell)
    (hmem : (n, vs) ∈ f.cols) (hcomplex : vs.any PCell.isComplex = true) :
    (n, vs.map PCell.toStrCell) ∈ (coerceComplex f).cols ∧
    (vs.map PCell.toStrCell).all PCell.isStr = true := by
  constructor
  · have := List.mem_map_of_mem
      (fun c => if c.2.any PCell.isComplex then (c.1, c.2.map PCell.toStrCell) else c) hmem
    simpa [coerceComplex, hcomplex] using this
  · rw [List.all_map, List.all_eq_true]
    intro c _
    rfl

/-- C6 (witness): the theorem applied to a concrete frame whose `Tags`
column holds a list cell and a `None` cell. -/
theorem complex_column_coerced_witness :
    ("Tags", [PCell.pList [JValue.str "x"], PCell.pNone]) ∈ sampleFrame.cols ∧
    ([PCell.pList [JValue.str "x"], PCell.pNone].any PCell.isComplex = true) ∧
    (("Tags", [PCell.pList [JValue.str "x"], PCell.pNone].map PCell.toStrCell) ∈
        (coerceComplex sampleFrame).cols ∧
      ([PCell.pList [JValue.str "x"], PCell.pNone].map PCell.toStrCell).all PCell.isStr = true) :=
  ⟨List.Mem.tail _ (List.Mem.head _), rfl,
    complex_column_coerced sampleFrame "Tags" [PCell.pList [JValue.str "x"], PCell.pNone]
      (List.Mem.tail _ (List.Mem.head _)) rfl⟩

/-- C10: the sanitize and coerce steps are frame-preserving outside their
targets — the column count is unchanged, each column keeps its position
and its number of rows, and a column containing no list or dict value
keeps all its values unchanged (only its name is sanitized). -/
theorem transform_frame_preserving (f : Frame) :
    (transformSteps f).cols.length = f.cols.length ∧
    ∀ (i : Nat) (n : String) (vs : List PCell), f.cols[i]? = some (n, vs) →
      (∃ vs' : List PCell, (transformSteps f).cols[i]? = some (sanitizeName n, vs') ∧
        vs'.length = vs.length) ∧
      (vs.any PCell.isComplex = false →
        (transformSteps f).cols[i]? = some (sanitizeName n, vs)) := by
  constructor
  · simp [transformSteps, coerceComplex, sanitizeColumns]
  · intro i n vs hget
    have hmap : (transformSteps f).cols[i]? =
        ((f.cols[i]?).map (fun c => (sanitizeName c.1, c.2))).map
          (fun c => if c.2.any PCell.isComplex then (c.1, c.2.map PCell.toStrCell) else c) := by
      simp [transformSteps, coerceComplex, sanitizeColumns]
    rw [hget] at hmap
    rw [Option.map_some', Option.map_some'] at hmap
    constructor
    · by_cases hc : vs.any PCell.isComplex = true
      · refine ⟨vs.map PCell.toStrCell, ?_, by rw [List.length_map]⟩
        rw [hmap, if_pos hc]
      · refine ⟨vs, ?_, rfl⟩
        rw [hmap, if_neg hc]
    · intro hfalse
      rw [hmap, if_neg (by simp [hfalse])]

/-- C10 (witness): the theorem applied to a concrete frame, evaluated at
its scalar-only column. -/
theorem transform_frame_preserving_witness :
    sampleFrame.cols[0]? = some ("Product ID", [PCell.pInt 7, PCell.pInt 8]) ∧
    ((transformSteps sampleFrame).cols.length = sampleFrame.cols.length ∧
     ∀ (i : Nat) (n : String) (vs : List PCell), sampleFrame.cols[i]? = some (n, vs) →
      (∃ vs' : List PCell, (transformSteps sampleFrame).cols[i]? = some (sanitizeName n, vs') ∧
        vs'.length = vs.length) ∧
      (vs.any PCell.isComplex = false →
        (transformSteps sampleFrame).cols[i]? = some (sanitizeName n, vs))) :=
  ⟨rfl, transform_frame_preserving sampleFrame⟩

/-- C7: on the parsed payload
`[ (id 1, tags [a, b]), (id 2, tags []) ]` the transform steps produce a
frame with exactly the columns `id` and `tags`, where `id` holds the
integers 1 and 2 and `tags` holds the strings `['a', 'b']` and `[]`
(`quoted` wraps a string in single quotes). -/
theorem transform_tags_scenario :
    (transformSteps (recordsFrame tagsPayload)).cols =
      [("id", [PCell.pInt 1, PCell.pInt 2]),
       ("tags", [PCell.pStr ("[" ++ quoted "a" ++ ", " ++ quoted "b" ++ "]"),
                 PCell.pStr "[]"])] := rfl

end Pipeline

namespace Pipeline

/-- C1: every exception raised by a step inside `fetch_and_load`'s `try`
block — fetch, DataFrame construction, or the load — is caught inside that
invocation and logged as an error appended to the logs the invocation had
already emitted; `fetch_and_load` totally returns a trace, so no exception
escapes to `run_pipeline`; and whenever the environment check passes,
`run_pipeline` invokes `fetch_and_load` for `raw_products` and then
`raw_carts`, whatever the per-source behaviours (hence regardless of
earlier failures). -/
theorem errors_caught_all_sources_processed
    (url table project dataset : String) (b : SourceBehavior) (e : PyExn)
    (getenv : String → Option String) (behav : String → SourceBehavior)
    (hraised : (fetch_and_load_body url table project dataset b).2 = some e)
    (hp : truthyEnv (getenv "GCP_PROJECT_ID") = true)
    (hd : truthyEnv (getenv "BQ_DATASET_ID") = true) :
    (∃ m : String, (fetch_and_load url table project dataset b).logs =
      (fetch_and_load_body url table project dataset b).1.logs ++ [(LogLevel.error, m)]) ∧
    (run_pipeline getenv behav).invocations =
      [(productsUrl, "raw_products"), (cartsUrl, "raw_carts")] := by
  constructor
  · rcases hb : fetch_and_load_body url table project dataset b with ⟨tr, e?⟩
    rw [hb] at hraised
    simp only at hraised
    subst hraised
    cases e with
    | requestException m =>
      exact ⟨msgNetError table m, by unfold fetch_and_load; rw [hb]⟩
    | otherException m =>
      exact ⟨msgProcError table m, by unfold fetch_and_load; rw [hb]⟩
  · exact run_pipeline_invocations getenv behav hp hd

/-- C1 (witness): a concrete invocation whose load step raises; the
exception is caught and logged, and the run still processes both
sources. -/
theorem errors_caught_all_sources_processed_witness :
    (fetch_and_load_body "u" "t" "p" "d"
        (behaviorOf (PyResult.exn (PyExn.otherException "boom")))).2 =
      some (PyExn.otherException "boom") ∧
    truthyEnv (envFull "GCP_PROJECT_ID") = true ∧
    truthyEnv (envFull "BQ_DATASET_ID") = true ∧
    ((∃ m : String, (fetch_and_load "u" "t" "p" "d"
        (behaviorOf (PyResult.exn (PyExn.otherException "boom")))).logs =
      (fetch_and_load_body "u" "t" "p" "d"
        (behaviorOf (PyResult.exn (PyExn.otherException "boom")))).1.logs
        ++ [(LogLevel.error, m)]) ∧
    (run_pipeline envFull (fun _ => trivialBehavior)).invocations =
      [(productsUrl, "raw_products"), (cartsUrl, "raw_carts")]) :=
  ⟨rfl, rfl, rfl,
    errors_caught_all_sources_processed "u" "t" "p" "d"
      (behaviorOf (PyResult.exn (PyExn.otherException "boom")))
      (PyExn.otherException "boom") envFull (fun _ => trivialBehavior) rfl rfl rfl⟩

/-- C2: when the fetch raises a `RequestException` (non-2xx status via
`raise_for_status`, or a network-level failure), `fetch_and_load` returns
without ever calling `to_gbq`, its trace holds exactly one error log, that
error names the source's table, and `run_pipeline` still invokes
`fetch_and_load` for both configured sources. -/
theorem fetch_failure_one_error_no_load
    (url table project dataset m : String) (b : SourceBehavior)
    (getenv : String → Option String) (behav : String → SourceBehavior)
    (hfetch : b.fetch = PyResult.exn (PyExn.requestException m))
    (hp : truthyEnv (getenv "GCP_PROJECT_ID") = true)
    (hd : truthyEnv (getenv "BQ_DATASET_ID") = true) :
    (fetch_and_load url table project dataset b).gbqCalls = [] ∧
    errorLogs (fetch_and_load url table project dataset b).logs =
      [(LogLevel.error, msgNetError table m)] ∧
    mentions (msgNetError table m) table = true ∧
    (run_pipeline getenv behav).invocations =
      [(productsUrl, "raw_products"), (cartsUrl, "raw_carts")] := by
  have htr : fetch_and_load url table project dataset b =
      ⟨[(LogLevel.info, msgStart url), (LogLevel.error, msgNetError table m)], []⟩ := by
    unfold fetch_and_load fetch_and_load_body
    rw [hfetch]
    rfl
  refine ⟨by rw [htr], by rw [htr]; rfl, ?_,
    run_pipeline_invocations getenv behav hp hd⟩
  unfold msgNetError
  rw [string_append_assoc]
  exact mentions_quoted_mid _ table _

/-- C2 (witness): a concrete source whose fetch times out. -/
theorem fetch_failure_one_error_no_load_witness :
    (behaviorOf (PyResult.exn (PyExn.requestException "timeout"))).fetch =
      PyResult.exn (PyExn.requestException "timeout") ∧
    truthyEnv (envFull "GCP_PROJECT_ID") = true ∧
    truthyEnv (envFull "BQ_DATASET_ID") = true ∧
    ((fetch_and_load "u" "raw_products" "p" "d"
        (behaviorOf (PyResult.exn (PyExn.requestException "timeout")))).gbqCalls = [] ∧
    errorLogs (fetch_and_load "u" "raw_products" "p" "d"
        (behaviorOf (PyResult.exn (PyExn.requestException "timeout")))).logs =
      [(LogLevel.error, msgNetError "raw_products" "timeout")] ∧
    mentions (msgNetError "raw_products" "timeout") "raw_products" = true ∧
    (run_pipeline envFull (fun _ => trivialBehavior)).invocations =
      [(productsUrl, "raw_products"), (cartsUrl, "raw_carts")]) :=
  ⟨rfl, rfl, rfl,
    fetch_failure_one_error_no_load "u" "raw_products" "p" "d" "timeout"
      (behaviorOf (PyResult.exn (PyExn.requestException "timeout")))
      envFull (fun _ => trivialBehavior) rfl rfl rfl⟩

/-- C4: when the parsed response body is empty (`[]`, `{}` or `null`),
`fetch_and_load` emits exactly the two info logs and a warning naming the
destination table, calls `to_gbq` on nothing, and logs no error.  The
resulting trace is independent of the DataFrame-construction and load
behaviours of `b`, so neither step runs. -/
theorem empty_payload_skips_load
    (url table project dataset : String) (b : SourceBehavior) (data : JValue)
    (hfetch : b.fetch = PyResult.ok data)
    (hempty : data = JValue.arr [] ∨ data = JValue.obj [] ∨ data = JValue.null) :
    fetch_and_load url table project dataset b =
      ⟨[(LogLevel.info, msgStart url), (LogLevel.info, msgExtracted table),
        (LogLevel.warning, msgSkip table)], []⟩ ∧
    mentions (msgSkip table) table = true ∧
    errorLogs (fetch_and_load url table project dataset b).logs = [] := by
  have hfalsy : data.falsy = true := by
    rcases hempty with h | h | h <;> subst h <;> rfl
  have htr : fetch_and_load url table project dataset b =
      ⟨[(LogLevel.info, msgStart url), (LogLevel.info, msgExtracted table),
        (LogLevel.warning, msgSkip table)], []⟩ := by
    unfold fetch_and_load fetch_and_load_body
    rw [hfetch]
    simp [hfalsy]
  refine ⟨htr, ?_, by rw [htr]; rfl⟩
  exact mentions_quoted_mid "Nenhum dado retornado da API para " table ". Pulando o carregamento."

/-- C4 (witness): a concrete source returning an empty JSON array. -/
theorem empty_payload_skips_load_witness :
    (behaviorOf (PyResult.ok (JValue.arr []))).fetch = PyResult.ok (JValue.arr []) ∧
    (JValue.arr [] = JValue.arr [] ∨ JValue.arr [] = JValue.obj [] ∨
      JValue.arr [] = JValue.null) ∧
    (fetch_and_load "u" "raw_carts" "p" "d" (behaviorOf (PyResult.ok (JValue.arr []))) =
      ⟨[(LogLevel.info, msgStart "u"), (LogLevel.info, msgExtracted "raw_carts"),
        (LogLevel.warning, msgSkip "raw_carts")], []⟩ ∧
    mentions (msgSkip "raw_carts") "raw_carts" = true ∧
    errorLogs (fetch_and_load "u" "raw_carts" "p" "d"
      (behaviorOf (PyResult.ok (JValue.arr [])))).logs = []) :=
  ⟨rfl, Or.inl rfl,
    empty_payload_skips_load "u" "raw_carts" "p" "d"
      (behaviorOf (PyResult.ok (JValue.arr []))) (JValue.arr []) rfl (Or.inl rfl)⟩

/-- C9 (implicit): the empty-payload guard is Python truthiness, so the
parsed bodies `false`, `0` and `""` take the same skip path as `[]`, `{}`
and `null`: the skip warning is logged, the trace is independent of the
DataFrame-construction and load behaviours (no frame is built), and
`to_gbq` is never called. -/
theorem falsy_payload_skips_load
    (url table project dataset : String) (b : SourceBehavior) (data : JValue)
    (hfetch : b.fetch = PyResult.ok data)
    (hfalsy : data = JValue.bool false ∨ data = JValue.num 0 ∨ data = JValue.str "") :
    fetch_and_load url table project dataset b =
      ⟨[(LogLevel.info, msgStart url), (LogLevel.info, msgExtracted table),
        (LogLevel.warning, msgSkip table)], []⟩ ∧
    errorLogs (fetch_and_load url table project dataset b).logs = [] := by
  have hf : data.falsy = true := by
    rcases hfalsy with h | h | h <;> subst h <;> rfl
  have htr : fetch_and_load url table project dataset b =
      ⟨[(LogLevel.info, msgStart url), (LogLevel.info, msgExtracted table),
        (LogLevel.warning, msgSkip table)], []⟩ := by
    unfold fetch_and_load fetch_and_load_body
    rw [hfetch]
    simp [hf]
  exact ⟨htr, by rw [htr]; rfl⟩

/-- C9 (witness): a concrete source whose parsed body is the JSON value
`false`. -/
theorem falsy_payload_skips_load_witness :
    (behaviorOf (PyResult.ok (JValue.bool false))).fetch =
      PyResult.ok (JValue.bool false) ∧
    (JValue.bool false = JValue.bool false ∨ JValue.bool false = JValue.num 0 ∨
      JValue.bool false = JValue.str "") ∧
    (fetch_and_load "u" "raw_products" "p" "d"
        (behaviorOf (PyResult.ok (JValue.bool false))) =
      ⟨[(LogLevel.info, msgStart "u"), (LogLevel.info, msgExtracted "raw_products"),
        (LogLevel.warning, msgSkip "raw_products")], []⟩ ∧
    errorLogs (fetch_and_load "u" "raw_products" "p" "d"
      (behaviorOf (PyResult.ok (JValue.bool false)))).logs = []) :=
  ⟨rfl, Or.inl rfl,
    falsy_payload_skips_load "u" "raw_products" "p" "d"
      (behaviorOf (PyResult.ok (JValue.bool false))) (JValue.bool false) rfl (Or.inl rfl)⟩

/-- C5 (amended): when a required environment value is absent or empty,
`run_pipeline` logs one fixed error message — which names both required
variables, not specifically the missing ones — and terminates cleanly:
`fetch_and_load` is never invoked and no `to_gbq` call is made. -/
theorem env_missing_aborts_run
    (getenv : String → Option String) (behav : String → SourceBehavior)
    (h : (truthyEnv (getenv "GCP_PROJECT_ID") &&
      truthyEnv (getenv "BQ_DATASET_ID")) = false) :
    run_pipeline getenv behav = ⟨[(LogLevel.error, msgEnvError)], [], []⟩ ∧
    mentions msgEnvError "GCP_PROJECT_ID" = true ∧
    mentions msgEnvError "BQ_DATASET_ID" = true := by
  refine ⟨?_, by rfl, by rfl⟩
  unfold run_pipeline
  simp [h]

/-- C5 (witness): the amended theorem applied to an environment missing
only `BQ_DATASET_ID`. -/
theorem env_missing_aborts_run_witness :
    (truthyEnv (envMissingDataset "GCP_PROJECT_ID") &&
      truthyEnv (envMissingDataset "BQ_DATASET_ID")) = false ∧
    (run_pipeline envMissingDataset (fun _ => trivialBehavior) =
      ⟨[(LogLevel.error, msgEnvError)], [], []⟩ ∧
    mentions msgEnvError "GCP_PROJECT_ID" = true ∧
    mentions msgEnvError "BQ_DATASET_ID" = true) :=
  ⟨rfl, env_missing_aborts_run envMissingDataset (fun _ => trivialBehavior) rfl⟩

/-- C5 (counterexample): the claim says the logged error describes exactly
which values are missing.  In the environment `envMissingDataset`,
`GCP_PROJECT_ID` is present (truthy) and only `BQ_DATASET_ID` is missing,
yet the single logged error still names `GCP_PROJECT_ID` — the message is
fixed and does not describe which values are missing. -/
theorem env_error_message_counterexample :
    truthyEnv (envMissingDataset "GCP_PROJECT_ID") = true ∧
    (run_pipeline envMissingDataset (fun _ => trivialBehavior)).logs =
      [(LogLevel.error, msgEnvError)] ∧
    mentions msgEnvError "GCP_PROJECT_ID" = true ∧
    ¬(mentions msgEnvError "GCP_PROJECT_ID" = true ↔
        truthyEnv (envMissingDataset "GCP_PROJECT_ID") = false) := by
  refine ⟨rfl, rfl, rfl, ?_⟩
  intro hiff
  have h1 := hiff.mp rfl
  rw [show truthyEnv (envMissingDataset "GCP_PROJECT_ID") = true from rfl] at h1
  exact Bool.noConfusion h1

end Pipeline
